import Mathlib

/-!
Verification of the NZ Freeview addon's streaming proxy and channel
registry cache.  The JavaScript sources (`server.js`, `addon/addon.js`,
and the auxiliary proxy variants) are shallowly embedded below: strings
are Lean `String`s, JavaScript string primitives (`trim`, `split('\n')`,
`startsWith`, `includes`, `encodeURIComponent`, …) are re-implemented
character-for-character after the ECMAScript semantics, and ambient
library behaviour (`new URL(...).href`, `decodeURIComponent` throwing,
`fetch` outcomes, timers) is passed in as explicit parameters or outcome
values.
-/

/-- ECMAScript whitespace (the set trimmed by `String.prototype.trim` and
matched by `\s` in regexes): TAB, LF, VT, FF, CR, SP, NBSP, plus the
Unicode space separators, LS, PS, NNBSP, MMSP, ideographic space and BOM. -/
def isJsWs (c : Char) : Bool :=
  c.toNat == 9 || c.toNat == 10 || c.toNat == 11 || c.toNat == 12 ||
  c.toNat == 13 || c.toNat == 32 ||
  c.toNat == 0xa0 || c.toNat == 0x1680 ||
  (0x2000 ≤ c.toNat && c.toNat ≤ 0x200a) ||
  c.toNat == 0x2028 || c.toNat == 0x2029 || c.toNat == 0x202f ||
  c.toNat == 0x205f || c.toNat == 0x3000 || c.toNat == 0xfeff

/-- JS `String.prototype.trim` on a character list: drop ECMAScript
whitespace from both ends. -/
def jsTrimL (l : List Char) : List Char :=
  ((l.dropWhile isJsWs).reverse.dropWhile isJsWs).reverse

/-- JS `String.prototype.trim`. -/
def jsTrim (s : String) : String :=
  ⟨jsTrimL s.data⟩

/-- JS `String.prototype.startsWith`. -/
def jsStartsWith (s pre : String) : Bool :=
  List.isPrefixOf pre.data s.data

/-- JS `String.prototype.endsWith`. -/
def jsEndsWith (s suf : String) : Bool :=
  List.isSuffixOf suf.data s.data

/-- Substring occurrence on character lists (JS `String.prototype.includes`). -/
def jsIncludesL : List Char → List Char → Bool
  | [], sub => sub.isEmpty
  | c :: rest, sub => List.isPrefixOf sub (c :: rest) || jsIncludesL rest sub

/-- JS `String.prototype.includes`. -/
def jsIncludes (s sub : String) : Bool :=
  jsIncludesL s.data sub.data

/-- JS `"…".split('\n')` on a character list.  Splitting the empty string
yields one empty piece, matching ECMAScript. -/
def splitNlL : List Char → List (List Char)
  | [] => [[]]
  | c :: rest =>
    if c = '\n' then [] :: splitNlL rest
    else
      match splitNlL rest with
      | [] => [[c]]
      | l :: ls => (c :: l) :: ls

/-- JS `body.split('\n')`. -/
def jsSplitNl (s : String) : List String :=
  (splitNlL s.data).map (fun l => ⟨l⟩)

/-- JS `Array.prototype.join('\n')` on character lists. -/
def joinNlL : List (List Char) → List Char
  | [] => []
  | [l] => l
  | l :: l2 :: ls => l ++ '\n' :: joinNlL (l2 :: ls)

/-- JS `lines.join('\n')`. -/
def jsJoinNl (lines : List String) : String :=
  ⟨joinNlL (lines.map String.data)⟩

/-- The characters a byte may contribute to a percent-escape: `toString(16)`
digits, uppercased as `encodeURIComponent` produces them. -/
def hexDigitChar : Nat → Char
  | 0 => '0'
  | 1 => '1'
  | 2 => '2'
  | 3 => '3'
  | 4 => '4'
  | 5 => '5'
  | 6 => '6'
  | 7 => '7'
  | 8 => '8'
  | 9 => '9'
  | 10 => 'A'
  | 11 => 'B'
  | 12 => 'C'
  | 13 => 'D'
  | 14 => 'E'
  | _ => 'F'

/-- UTF-8 encoding of a single code point, as the byte values
`encodeURIComponent` percent-escapes. -/
def utf8Bytes (c : Char) : List Nat :=
  let n := c.toNat
  if n < 0x80 then [n]
  else if n < 0x800 then [0xc0 + n / 0x40, 0x80 + n % 0x40]
  else if n < 0x10000 then
    [0xe0 + n / 0x1000, 0x80 + (n / 0x40) % 0x40, 0x80 + n % 0x40]
  else
    [0xf0 + n / 0x40000, 0x80 + (n / 0x1000) % 0x40,
     0x80 + (n / 0x40) % 0x40, 0x80 + n % 0x40]

/-- `%XY` escape for one byte. -/
def pctEncodeByte (b : Nat) : List Char :=
  ['%', hexDigitChar (b / 16), hexDigitChar (b % 16)]

/-- The characters `encodeURIComponent` leaves unescaped:
`A-Z a-z 0-9 - _ . ! ~ * ' ( )`. -/
def isUriUnreserved (c : Char) : Bool :=
  (65 ≤ c.toNat && c.toNat ≤ 90) || (97 ≤ c.toNat && c.toNat ≤ 122) ||
  (48 ≤ c.toNat && c.toNat ≤ 57) ||
  c.toNat == 45 || c.toNat == 95 || c.toNat == 46 || c.toNat == 33 ||
  c.toNat == 126 || c.toNat == 42 ||
  c.toNat == 39 || c.toNat == 40 || c.toNat == 41

/-- `encodeURIComponent` applied to one character. -/
def encCharL (c : Char) : List Char :=
  if isUriUnreserved c then [c] else (utf8Bytes c).flatMap pctEncodeByte

/-- JS `encodeURIComponent`. -/
def encodeURIComponent (s : String) : String :=
  ⟨s.data.flatMap encCharL⟩

/-!
## The playlist rewriter of `server.js` (primary variant, lines 191-204)

```js
const rewrittenLines = m3u8Body.split('\n').map(line => {
    line = line.trim();
    if (line && !line.startsWith('#')) {
        try {
            const absUrl = new URL(line, baseUrl).href;
            if (absUrl.startsWith(addonBaseUrl)) return line;
            return `...addonBaseUrl.../proxy/...encodeURIComponent(absUrl)...`;
        } catch {
            return line;
        }
    }
    return line;
});
const rewrittenBody = rewrittenLines.join('\n');
```

`resolve` models `line => new URL(line, baseUrl).href` for the playlist's
own URL `baseUrl`; `none` models the constructor throwing (the `catch`
branch). -/

/-- One line of the primary rewriter. -/
def rewriteLine (addonBaseUrl : String) (resolve : String → Option String)
    (line : String) : String :=
  let l := jsTrim line
  if !(l == "") && !(jsStartsWith l "#") then
    match resolve l with
    | some absUrl =>
      if jsStartsWith absUrl addonBaseUrl then l
      else addonBaseUrl ++ "/proxy/" ++ encodeURIComponent absUrl
    | none => l
  else l

/-- `m3u8Body.split('\n').map(...)` of the primary rewriter. -/
def rewriteLines (addonBaseUrl : String) (resolve : String → Option String)
    (body : String) : List String :=
  (jsSplitNl body).map (rewriteLine addonBaseUrl resolve)

/-- The rewritten body `rewrittenLines.join('\n')` of the primary rewriter. -/
def rewritePlaylist (addonBaseUrl : String) (resolve : String → Option String)
    (body : String) : String :=
  jsJoinNl (rewriteLines addonBaseUrl resolve body)

/-!
## The playlist rewriter of the `http-proxy-middleware` variant
(`onProxyRes`, unnamed part 5, lines 72-84) — it trims every emitted
line and has no already-proxied guard. -/

/-- One line of the `onProxyRes` rewriter. -/
def rewriteLine005 (addonHost : String) (resolve : String → Option String)
    (line : String) : String :=
  let trimmedLine := jsTrim line
  if !(trimmedLine == "") && !(jsStartsWith trimmedLine "#") then
    match resolve trimmedLine with
    | some segmentUrlHref => addonHost ++ "/proxy/" ++ encodeURIComponent segmentUrlHref
    | none => trimmedLine
  else trimmedLine

/-- The full `onProxyRes` rewrite: split, map, join. -/
def rewritePlaylist005 (addonHost : String) (resolve : String → Option String)
    (body : String) : String :=
  jsJoinNl ((jsSplitNl body).map (rewriteLine005 addonHost resolve))

/-!
## The proxy request coordinator of `server.js` (primary variant, lines 81-236)

Responses are modelled as a status code plus a body shape; JSON bodies keep
the exact field lists and strings of the source.  Ambient library behaviour
is injected through `ProxyEnv`: `decodeUriComponent` returns `none` when the
JS function would throw `URIError: URI malformed`, `urlCtorOk` tells whether
`new URL(decodedUrl)` succeeds, `resolve` is `line => new URL(line, baseUrl).href`
(`none` = constructor throw), and `fetchOutcome` is how the upstream
`fetch` settled.  A JS `undefined` serialised into a JSON response is
rendered as `jnull`. -/

inductive JVal where
  | jnull
  | jstr (s : String)
  | jnum (n : Int)
  | jobj (fields : List (String × JVal))

inductive RBody where
  | empty
  | json (v : JVal)
  | text (s : String)
  | stream

structure Response where
  status : Nat
  body : RBody

inductive Method where
  | get
  | head
  | options
deriving DecidableEq

def methodString : Method → String
  | Method.get => "GET"
  | Method.head => "HEAD"
  | Method.options => "OPTIONS"

inductive FetchOutcome where
  | fetchError (msg : String)
  | response (status : Nat) (statusText : String) (contentType : Option String)
      (bodyText : Except String String)

structure ProxyEnv where
  method : Method
  encodedUrl : String
  queryJson : JVal
  customHeadersJson : JVal
  timestamp : String
  decodeUriComponent : String → Option String
  urlCtorOk : String → Bool
  urlCtorErrMsg : String
  resolve : String → Option String
  addonBaseUrl : String
  fetchOutcome : FetchOutcome

/-- The 30 000 ms budget armed around the upstream fetch:
`setTimeout(() => controller.abort(), 30000)` (line 120; the second
variant uses the same constant at line 368). -/
def upstreamTimeoutMs : Nat := 30000

/-- The `catch` block of the primary `proxyHandler` (lines 211-235): HEAD
gets a bare 503, anything else a 503 JSON diagnostic whose `message`
appends ` for URL: ` and the decoded URL when one was computed. -/
def proxyCatchResponse (env : ProxyEnv) (decodedUrl : Option String)
    (upstream : Option (Nat × String)) (errMsg : String) : Response :=
  if env.method = Method.head then { status := 503, body := RBody.empty }
  else
    { status := 503
    , body := RBody.json (JVal.jobj
        [ ("error", JVal.jstr "Proxy error")
        , ("message", JVal.jstr (errMsg ++ (match decodedUrl with
            | some d => if d == "" then "" else " for URL: " ++ d
            | none => "")))
        , ("upstreamStatus", match upstream with
            | some u => JVal.jnum (Int.ofNat u.1)
            | none => JVal.jnull)
        , ("url", if env.encodedUrl == "" then JVal.jnull else JVal.jstr env.encodedUrl)
        , ("details", JVal.jobj
            [ ("timestamp", JVal.jstr env.timestamp)
            , ("method", JVal.jstr (methodString env.method))
            , ("url", match decodedUrl with
                | some d => JVal.jstr d
                | none => JVal.jnull)
            , ("error", JVal.jstr errMsg)
            , ("upstreamStatus", match upstream with
                | some u => JVal.jnum (Int.ofNat u.1)
                | none => JVal.jnull)
            , ("upstreamStatusText", match upstream with
                | some u => JVal.jstr u.2
                | none => JVal.jnull)
            , ("headers", env.customHeadersJson)
            , ("query", env.queryJson) ]) ]) }

/-- The 400 of line 107: `res.status(400).json({ error: 'No encoded URL provided to proxy' })`. -/
def noUrl400 : Response :=
  { status := 400
  , body := RBody.json (JVal.jobj [("error", JVal.jstr "No encoded URL provided to proxy")]) }

/-- The 400 of line 112: invalid scheme. -/
def badScheme400 : Response :=
  { status := 400
  , body := RBody.json (JVal.jobj
      [("error", JVal.jstr "Invalid URL provided for proxy. Must start with http or https.")]) }

/-- The playlist branch of the handler (lines 188-206): `await
upstreamRes.text()` either throws — reaching the catch with the upstream
response at hand — or yields the body handed to the rewriter. -/
def proxyOnM3U8Body (env : ProxyEnv) (decodedUrl : String) (status : Nat)
    (statusText : String) : Except String String → Response
  | Except.error msg =>
    proxyCatchResponse env (some decodedUrl) (some (status, statusText)) msg
  | Except.ok m3u8Body =>
    { status := 200
    , body := RBody.text (rewritePlaylist env.addonBaseUrl env.resolve m3u8Body) }

/-- The `isM3U8` test of line 157: content type contains an MPEG-URL
marker, or the decoded URL ends in `.m3u8`. -/
def m3u8ContentType (contentType decodedUrl : String) : Bool :=
  jsIncludes contentType "mpegurl" || jsIncludes contentType "x-mpegURL" ||
  jsEndsWith decodedUrl ".m3u8"

/-- Dispatch on how the upstream `fetch` settled (lines 137-210): a
rejected fetch rethrows into the catch; a completed non-2xx response is
propagated with a JSON error body (lines 148-151); an OK response is
branched on HEAD / playlist / relay. -/
def proxyOnFetchOutcome (env : ProxyEnv) (decodedUrl : String) : FetchOutcome → Response
  | FetchOutcome.fetchError msg => proxyCatchResponse env (some decodedUrl) none msg
  | FetchOutcome.response status statusText ctype bodyText =>
    if !(200 ≤ status && status < 300) then
      { status := status
      , body := RBody.json (JVal.jobj
          [("error", JVal.jstr ("Upstream HTTP " ++ toString status ++ ": " ++ statusText))]) }
    else
      if env.method = Method.head then { status := 200, body := RBody.empty }
      else if m3u8ContentType (ctype.getD "") decodedUrl then
        proxyOnM3U8Body env decodedUrl status statusText bodyText
      else { status := 200, body := RBody.stream }

/-- The primary `proxyHandler` after its two URL validations (lines
115-235): `new URL` base construction, then the fetch dispatch. -/
def proxyPostValidation (env : ProxyEnv) (decodedUrl : String) : Response :=
  if !(env.urlCtorOk decodedUrl) then
    proxyCatchResponse env (some decodedUrl) none env.urlCtorErrMsg
  else proxyOnFetchOutcome env decodedUrl env.fetchOutcome

/-- Dispatch on `decodeURIComponent` (lines 110-114): a throw reaches the
catch with `decodedUrl` still unset; a decoded URL is scheme-checked. -/
def proxyOnDecodedUrl (env : ProxyEnv) : Option String → Response
  | none => proxyCatchResponse env none none "URI malformed"
  | some decodedUrl =>
    if !(jsStartsWith decodedUrl "http://" || jsStartsWith decodedUrl "https://") then
      badScheme400
    else proxyPostValidation env decodedUrl

/-- The primary `proxyHandler` (lines 81-236): OPTIONS short-circuit,
encoded-URL validation, then decode and the rest of the pipeline. -/
def proxyHandler (env : ProxyEnv) : Response :=
  if env.method = Method.options then { status := 200, body := RBody.empty }
  else if env.encodedUrl == "" then noUrl400
  else proxyOnDecodedUrl env (env.decodeUriComponent env.encodedUrl)

/-- Whether a response carries a JSON body (`res.json(...)`), as opposed to
relayed media bytes. -/
def isJsonResponse (r : Response) : Bool :=
  match r.body with
  | RBody.json _ => true
  | _ => false

/-!
## The second `proxyHandler` variant (`server.js` lines 347-465)

On `!upstreamRes.ok` it throws `Upstream HTTP <status>: <statusText>`
(line 401), and its `catch` (lines 456-464) answers 500 — never the
upstream status — with a JSON body carrying the upstream status only as a
field.  The two definitions below embed that flow for a GET request whose
upstream response completed. -/

def proxyV2CatchResponse (decodedUrl : Option String) (encodedUrl : String)
    (upstreamStatus : Option Nat) (errMsg : String) : Response :=
  { status := 500
  , body := RBody.json (JVal.jobj
      [ ("error", JVal.jstr "Proxy error")
      , ("message", JVal.jstr (errMsg ++ (match decodedUrl with
          | some d => if d == "" then "" else " for URL: " ++ d
          | none => "")))
      , ("upstreamStatus", match upstreamStatus with
          | some s => JVal.jnum (Int.ofNat s)
          | none => JVal.jnull)
      , ("url", if encodedUrl == "" then JVal.jnull else JVal.jstr encodedUrl) ]) }

def proxyV2UpstreamNotOk (decodedUrl encodedUrl : String) (status : Nat)
    (statusText : String) : Response :=
  proxyV2CatchResponse (some decodedUrl) encodedUrl (some status)
    ("Upstream HTTP " ++ toString status ++ ": " ++ statusText)

/-!
## The channel registry (`addon/addon.js` lines 206-223, 293-358, 373-382)

`updateChannelCache` parses the fetched M3U feed line by line; the cache
is a mutable record `(data, lastFetch, isUpdating)`.  The parse loop, the
`#EXTINF` attribute regex `([\w-]+)="([^"]*)"`, `lastIndexOf(',')`, the
`id` fallback chain with JS truthiness, and the final
`if (cur.id && cur.name && cur.url)` push guard are embedded below.
`Option String` models a JS string-or-undefined value. -/

structure Channel where
  id : Option String
  name : Option String
  logo : Option String
  group : Option String
  chno : Option String
  url : Option String
deriving DecidableEq

/-- JS `a || b` on string-or-undefined values: falsy (`undefined` or `""`)
falls through. -/
def jsOrStr (a b : Option String) : Option String :=
  match a with
  | some s => if s == "" then b else some s
  | none => b

/-- JS `a || undefined`. -/
def jsOrUndef (a : Option String) : Option String :=
  match a with
  | some s => if s == "" then none else some s
  | none => none

/-- JS truthiness of a string-or-undefined value. -/
def jsTruthy (o : Option String) : Bool :=
  match o with
  | some s => !(s == "")
  | none => false

/-- `\w` or `-`, the character class of the attribute-key regex. -/
def isWordDashChar (c : Char) : Bool :=
  (48 ≤ c.toNat && c.toNat ≤ 57) || (65 ≤ c.toNat && c.toNat ≤ 90) ||
  (97 ≤ c.toNat && c.toNat ≤ 122) || c.toNat == 95 || c.toNat == 45

/-- One attempted match of `([\w-]+)="([^"]*)"` at the head of the input:
greedy key run, literal `="`, value up to the next quote, closing quote. -/
def attrMatchAt (l : List Char) : Option (String × String × List Char) :=
  let key := l.takeWhile isWordDashChar
  if key.isEmpty then none
  else
    match l.drop key.length with
    | '=' :: '"' :: rest =>
      let v := rest.takeWhile (fun c => !(c == '"'))
      match rest.drop v.length with
      | '"' :: rest2 => some (⟨key⟩, ⟨v⟩, rest2)
      | _ => none
    | _ => none

/-- The `attrRegex.exec` loop: successive leftmost non-overlapping matches,
the scan resuming after each match (or one character on).  The fuel
argument (initially the input length, which bounds the number of steps)
totalises the loop. -/
def scanAttrsFuel : Nat → List Char → List (String × String)
  | 0, _ => []
  | _, [] => []
  | fuel + 1, c :: rest =>
    match attrMatchAt (c :: rest) with
    | some (k, v, rest2) => (k, v) :: scanAttrsFuel fuel rest2
    | none => scanAttrsFuel fuel rest

def scanAttrs (l : List Char) : List (String × String) :=
  scanAttrsFuel l.length l

/-- `attrs[k]` where `attrs` was filled by successive assignments: the last
match for a key wins. -/
def attrsGet (attrs : List (String × String)) (k : String) : Option String :=
  (attrs.reverse.find? (fun p => p.1 == k)).map (fun p => p.2)

/-- JS `line.lastIndexOf(c)`. -/
def lastIndexOfAux : List Char → Char → Nat → Option Nat
  | [], _, _ => none
  | x :: rest, c, i =>
    match lastIndexOfAux rest c (i + 1) with
    | some j => some j
    | none => if x == c then some i else none

def lastIndexOfChar (l : List Char) (c : Char) : Option Nat :=
  lastIndexOfAux l c 0

/-- `name.replace(/\s+/g, '-')`: each maximal whitespace run becomes a
single dash; the flag records whether the previous character was
whitespace. -/
def replaceWsRunsDash : Bool → List Char → List Char
  | _, [] => []
  | prevWs, c :: rest =>
    if isJsWs c then
      if prevWs then replaceWsRunsDash true rest
      else '-' :: replaceWsRunsDash true rest
    else c :: replaceWsRunsDash false rest

/-- `name.replace(/\s+/g, '-').toLowerCase()` (ASCII lowering, which covers
every character the feed uses). -/
def slugify (s : String) : String :=
  ⟨(replaceWsRunsDash false s.data).map Char.toLower⟩

/-- Lines 312-328: build the pending channel record from an `#EXTINF:` line. -/
def parseExtinf (line : String) : Channel :=
  let attrs := scanAttrs line.data
  let name : Option String :=
    match lastIndexOfChar line.data ',' with
    | some i => some (jsTrim ⟨line.data.drop (i + 1)⟩)
    | none => none
  { id := jsOrStr (attrsGet attrs "channel-id") (jsOrStr (attrsGet attrs "tvg-id")
      (match name with
       | some n => if !(n == "") then some (slugify n) else none
       | none => none))
  , name := name
  , logo := jsOrUndef (attrsGet attrs "tvg-logo")
  , group := jsOrUndef (attrsGet attrs "group-title")
  , chno := jsOrUndef (attrsGet attrs "tvg-chno")
  , url := none }

/-- `m3u.split(/\r?\n/)`. -/
def splitLinesCRLFL : List Char → List (List Char)
  | [] => [[]]
  | '\r' :: '\n' :: rest => [] :: splitLinesCRLFL rest
  | '\n' :: rest => [] :: splitLinesCRLFL rest
  | c :: rest =>
    match splitLinesCRLFL rest with
    | [] => [[c]]
    | l :: ls => (c :: l) :: ls

/-- The parse loop of `updateChannelCache` (lines 308-336). -/
def parseM3ULoop : Option Channel → List String → List Channel
  | _, [] => []
  | cur, line :: rest =>
    if jsStartsWith line "#EXTINF:" then parseM3ULoop (some (parseExtinf line)) rest
    else
      match cur with
      | some c =>
        if !(line == "") && !(jsStartsWith line "#") then
          let c2 := { c with url := some (jsTrim line) }
          if jsTruthy c2.id && jsTruthy c2.name && jsTruthy c2.url then
            c2 :: parseM3ULoop none rest
          else parseM3ULoop none rest
        else parseM3ULoop (some c) rest
      | none => parseM3ULoop none rest

def parseM3U (m3u : String) : List Channel :=
  parseM3ULoop none ((splitLinesCRLFL m3u.data).map (fun l => ⟨l⟩))

/-- `CACHE_CONFIG.CHANNEL_CACHE_DURATION` (line 208). -/
def channelCacheDurationMs : Int := 60 * 60 * 1000

structure ChannelCacheState where
  data : Option (List Channel)
  lastFetch : Int
  isUpdating : Bool
deriving DecidableEq

/-- The cache plus a counter of feed fetches actually issued, used to
state the single-fetch property. -/
structure CacheWorld where
  cache : ChannelCacheState
  feedFetches : Nat
deriving DecidableEq

/-- `updateChannelCache` up to its suspension at
`await resilientFetch(M3U_URL)`: the in-flight guard (lines 294-297)
returns immediately — flag `false` — otherwise `isUpdating` is set and a
feed fetch is issued (lines 300-304). -/
def updateChannelCacheBegin (w : CacheWorld) : CacheWorld × Bool :=
  if w.cache.isUpdating then (w, false)
  else ({ cache := { w.cache with isUpdating := true }, feedFetches := w.feedFetches + 1 }, true)

/-- The remainder of `updateChannelCache` once the feed fetch settles: on
success the parsed snapshot and timestamp are stored (lines 305-339), on
failure only logging happens (lines 348-354); `finally` clears
`isUpdating` either way (lines 355-357). -/
def updateChannelCacheComplete (result : Except String String) (now : Int)
    (w : CacheWorld) : CacheWorld :=
  match result with
  | Except.ok m3u =>
    { w with cache := { data := some (parseM3U m3u), lastFetch := now, isUpdating := false } }
  | Except.error _ => { w with cache := { w.cache with isUpdating := false } }

/-- A solo, uninterleaved run of `updateChannelCache`. -/
def updateChannelCacheRun (result : Except String String) (now : Int)
    (w : CacheWorld) : CacheWorld :=
  let p := updateChannelCacheBegin w
  if p.2 then updateChannelCacheComplete result now p.1 else p.1

/-- `getChannels` (lines 373-382) as a single caller's run: refresh when
the cache is empty or stale, then return `channelCache.data`; `result` is
the feed outcome its own `updateChannelCache` run would observe. -/
def getChannelsRun (result : Except String String) (now : Int)
    (w : CacheWorld) : Option (List Channel) × CacheWorld :=
  if w.cache.data = none ∨ now - w.cache.lastFetch > channelCacheDurationMs then
    let w2 := updateChannelCacheRun result now w
    (w2.cache.data, w2)
  else (w.cache.data, w)

/-- The overlapping-refresh interleaving: caller A enters
`updateChannelCache` and suspends at the feed fetch; caller B then runs
`getChannels()` to completion (single-threaded event loop, so B runs
whole between A's suspension points); finally A's fetch resolves with
`aResult` and A finishes.  Returns B's value and the final world.
`bResult` is what B's own update run would observe were it to fetch. -/
def twoCallerRefreshTrace (aResult bResult : Except String String)
    (aNow bNow : Int) (w0 : CacheWorld) : Option (List Channel) × CacheWorld :=
  let a1 := updateChannelCacheBegin w0
  let b := getChannelsRun bResult bNow a1.1
  let w3 := if a1.2 then updateChannelCacheComplete aResult aNow b.2 else b.2
  (b.1, w3)

/-!
## Concrete instances used by witnesses and counterexamples

The concrete `resolve` / `decodeUriComponent` functions below reproduce
what the WHATWG `URL` class and `decodeURIComponent` return at exactly
the inputs the witnesses evaluate them on (an absolute `https:` URL is
its own `href`; `segment1.ts` against `https://example.test/live.m3u8`
resolves to `https://example.test/segment1.ts`; `new URL("https://", base)`
throws `Invalid URL`). -/

def witResolve : String → Option String := fun l =>
  if jsStartsWith l "https://" then some l
  else if l == "segment1.ts" then some "https://example.test/segment1.ts"
  else none

/-- A resolver refusing everything: the behaviour of
`new URL(line, base)` on lines such as `https://` for which the
constructor throws. -/
def resolveNever : String → Option String := fun _ => none

def witEnv : ProxyEnv :=
  { method := Method.get
  , encodedUrl := "https%3A%2F%2Fexample.test%2Flive.m3u8"
  , queryJson := JVal.jnull
  , customHeadersJson := JVal.jnull
  , timestamp := "2026-01-01T00:00:00.000Z"
  , decodeUriComponent := fun e =>
      if e == "https%3A%2F%2Fexample.test%2Flive.m3u8" then some "https://example.test/live.m3u8"
      else none
  , urlCtorOk := fun _ => true
  , urlCtorErrMsg := "Invalid URL"
  , resolve := witResolve
  , addonBaseUrl := "https://addon.example"
  , fetchOutcome := FetchOutcome.response 200 "OK" (some "application/vnd.apple.mpegurl")
      (Except.ok "#EXTM3U\nsegment1.ts") }

def witEnv500 : ProxyEnv :=
  { witEnv with fetchOutcome :=
      FetchOutcome.response 500 "Internal Server Error" (some "video/MP2T") (Except.ok "") }

def witEnvFail : ProxyEnv :=
  { witEnv with fetchOutcome := FetchOutcome.fetchError "The user aborted a request." }

/-- The channel produced by `sampleM3U`. -/
def sampleChannel : Channel :=
  { id := some "one", name := some "TV One", logo := none, group := none
  , chno := none, url := some "http://x/1.m3u8" }

def sampleM3U : String :=
  "#EXTINF:-1 tvg-id=\"one\",TV One\nhttp://x/1.m3u8"

/-- A cold cache: no snapshot yet, no refresh running. -/
def coldWorld : CacheWorld :=
  { cache := { data := none, lastFetch := 0, isUpdating := false }, feedFetches := 0 }

example :
    rewriteLine "https://a.b" (fun l => if l == "segment1.ts" then some "https://example.test/segment1.ts" else none) "segment1.ts"
      = "https://a.b/proxy/https%3A%2F%2Fexample.test%2Fsegment1.ts" := by decide

example : jsTrim "  #EXTM3U \r" = "#EXTM3U" := by decide

example : jsSplitNl "a\nb\n" = ["a", "b", ""] := by decide

example : jsJoinNl ["a", "b", ""] = "a\nb\n" := by decide

/-! ## Supporting lemmas about the embedded string primitives -/

theorem data_mk (l : List Char) : (String.mk l).data = l := rfl

theorem mk_data (s : String) : String.mk s.data = s := rfl

theorem mem_of_mem_dropWhile_self {α} (p : α → Bool) (l : List α) {c : α}
    (h : c ∈ l.dropWhile p) : c ∈ l := by
  obtain ⟨t, ht⟩ := List.dropWhile_suffix (l := l) p
  rw [← ht]
  exact List.mem_append_right t h

theorem head?_dropWhile_false {α} (p : α → Bool) (l : List α) :
    ∀ c, (l.dropWhile p).head? = some c → p c = false := by
  induction l with
  | nil => intro c h; simp [List.dropWhile] at h
  | cons a t ih =>
    intro c h
    by_cases hp : p a = true
    · rw [List.dropWhile_cons, if_pos hp] at h
      exact ih c h
    · rw [List.dropWhile_cons, if_neg hp] at h
      simp only [List.head?_cons, Option.some.injEq] at h
      subst h
      exact Bool.eq_false_iff.mpr hp

theorem dropWhile_eq_self_of_head? {α} (p : α → Bool) (l : List α)
    (h : ∀ c, l.head? = some c → p c = false) : l.dropWhile p = l := by
  cases l with
  | nil => rfl
  | cons a t =>
    have ha : p a = false := h a rfl
    rw [List.dropWhile_cons, if_neg (by simp [ha])]

theorem dropWhile_idem {α} (p : α → Bool) (l : List α) :
    (l.dropWhile p).dropWhile p = l.dropWhile p :=
  dropWhile_eq_self_of_head? p _ (head?_dropWhile_false p l)

theorem jsTrimL_idem (l : List Char) : jsTrimL (jsTrimL l) = jsTrimL l := by
  unfold jsTrimL
  set a := l.dropWhile isJsWs with ha
  set s := a.reverse.dropWhile isJsWs with hs
  have hpre : ∃ t, s.reverse ++ t = a := by
    obtain ⟨t, ht⟩ := List.dropWhile_suffix (l := a.reverse) isJsWs
    exact ⟨t.reverse, by rw [← List.reverse_append, hs, ht, List.reverse_reverse]⟩
  have h1 : s.reverse.dropWhile isJsWs = s.reverse := by
    apply dropWhile_eq_self_of_head?
    intro c hc
    obtain ⟨t, ht⟩ := hpre
    cases e : s.reverse with
    | nil => rw [e] at hc; simp at hc
    | cons x r =>
      rw [e] at hc
      simp only [List.head?_cons, Option.some.injEq] at hc
      subst hc
      apply head?_dropWhile_false isJsWs l
      rw [← ha, ← ht, e]
      rfl
  have h2 : s.reverse.reverse.dropWhile isJsWs = s := by
    rw [List.reverse_reverse, hs]
    exact dropWhile_idem _ _
  rw [h1, h2]

theorem jsTrim_idem (s : String) : jsTrim (jsTrim s) = jsTrim s :=
  String.ext (jsTrimL_idem s.data)

theorem mem_of_mem_jsTrimL {c : Char} {l : List Char} (h : c ∈ jsTrimL l) : c ∈ l := by
  unfold jsTrimL at h
  rw [List.mem_reverse] at h
  have h2 := mem_of_mem_dropWhile_self _ _ h
  rw [List.mem_reverse] at h2
  exact mem_of_mem_dropWhile_self _ _ h2

theorem splitNlL_ne_nil (l : List Char) : splitNlL l ≠ [] := by
  induction l with
  | nil => simp [splitNlL]
  | cons c rest ih =>
    simp only [splitNlL]
    split
    · simp
    · cases h : splitNlL rest with
      | nil => simp
      | cons a as => simp [h]

theorem mem_splitNlL_no_nl (l : List Char) (p : List Char)
    (hp : p ∈ splitNlL l) : '\n' ∉ p := by
  induction l generalizing p with
  | nil =>
    simp only [splitNlL, List.mem_singleton] at hp
    subst hp; simp
  | cons c rest ih =>
    simp only [splitNlL] at hp
    by_cases hc : c = '\n'
    · rw [if_pos hc] at hp
      rcases List.mem_cons.mp hp with h | h
      · subst h; simp
      · exact ih p h
    · rw [if_neg hc] at hp
      cases hrest : splitNlL rest with
      | nil => exact absurd hrest (splitNlL_ne_nil rest)
      | cons a as =>
        rw [hrest] at hp
        rcases List.mem_cons.mp hp with h | h
        · subst h
          intro hmem
          rcases List.mem_cons.mp hmem with h2 | h2
          · exact hc h2.symm
          · exact ih a (by rw [hrest]; exact List.mem_cons_self a as) h2
        · exact ih p (by rw [hrest]; exact List.mem_cons_of_mem a h)

theorem splitNlL_of_no_nl (l : List Char) (h : '\n' ∉ l) : splitNlL l = [l] := by
  induction l with
  | nil => rfl
  | cons c rest ih =>
    have hc : ¬ c = '\n' := fun e => h (by rw [e]; exact List.mem_cons_self _ _)
    have hrest : '\n' ∉ rest := fun m => h (List.mem_cons_of_mem _ m)
    simp [splitNlL, if_neg hc, ih hrest]

theorem splitNlL_append_nl (l t : List Char) (h : '\n' ∉ l) :
    splitNlL (l ++ '\n' :: t) = l :: splitNlL t := by
  induction l with
  | nil => simp [splitNlL]
  | cons c l2 ih =>
    have hc : ¬ c = '\n' := fun e => h (by rw [e]; exact List.mem_cons_self _ _)
    have hl2 : '\n' ∉ l2 := fun m => h (List.mem_cons_of_mem _ m)
    simp [splitNlL, if_neg hc, ih hl2]

theorem splitNlL_joinNlL (L : List (List Char)) (hne : L ≠ [])
    (hnl : ∀ p ∈ L, '\n' ∉ p) : splitNlL (joinNlL L) = L := by
  induction L with
  | nil => exact absurd rfl hne
  | cons l ls ih =>
    cases ls with
    | nil =>
      simp only [joinNlL]
      exact splitNlL_of_no_nl l (hnl l (List.mem_cons_self _ _))
    | cons l2 ls2 =>
      simp only [joinNlL]
      rw [splitNlL_append_nl l _ (hnl l (List.mem_cons_self _ _))]
      congr 1
      exact ih (by simp) (fun p hp => hnl p (List.mem_cons_of_mem _ hp))

theorem jsSplitNl_jsJoinNl (M : List String) (hM : M ≠ [])
    (h : ∀ m ∈ M, ∀ c ∈ m.data, ¬ c = '\n') : jsSplitNl (jsJoinNl M) = M := by
  unfold jsSplitNl jsJoinNl
  rw [data_mk, splitNlL_joinNlL]
  · rw [List.map_map]
    exact List.map_id M
  · intro e
    exact hM (by simpa using List.map_eq_nil_iff.mp e)
  · intro p hp hnl
    rcases List.mem_map.mp hp with ⟨m, hm, rfl⟩
    exact h m hm '\n' hnl rfl

theorem isJsWs_false_of_isUriUnreserved {c : Char} (h : isUriUnreserved c = true) :
    isJsWs c = false := by
  rw [Bool.eq_false_iff]
  intro hw
  simp only [isUriUnreserved, Bool.or_eq_true, Bool.and_eq_true, beq_iff_eq,
    decide_eq_true_eq] at h
  simp only [isJsWs, Bool.or_eq_true, Bool.and_eq_true, beq_iff_eq,
    decide_eq_true_eq] at hw
  omega

theorem hexDigitChar_not_ws (n : Nat) : isJsWs (hexDigitChar n) = false := by
  rcases n with _|_|_|_|_|_|_|_|_|_|_|_|_|_|_|m
  all_goals try decide
  show isJsWs 'F' = false
  decide

theorem mem_pctEncodeByte_not_ws {c : Char} {b : Nat} (h : c ∈ pctEncodeByte b) :
    isJsWs c = false := by
  simp only [pctEncodeByte, List.mem_cons, List.not_mem_nil, or_false] at h
  rcases h with rfl | rfl | rfl
  · decide
  · exact hexDigitChar_not_ws _
  · exact hexDigitChar_not_ws _

theorem mem_encCharL_not_ws {c2 c : Char} (h : c2 ∈ encCharL c) : isJsWs c2 = false := by
  unfold encCharL at h
  split at h
  · rename_i hc
    simp only [List.mem_singleton] at h
    subst h
    exact isJsWs_false_of_isUriUnreserved hc
  · rcases List.mem_flatMap.mp h with ⟨b, _, hb⟩
    exact mem_pctEncodeByte_not_ws hb

theorem mem_encodeURIComponent_not_ws {c : Char} {s : String}
    (h : c ∈ (encodeURIComponent s).data) : isJsWs c = false := by
  unfold encodeURIComponent at h
  rw [data_mk] at h
  rcases List.mem_flatMap.mp h with ⟨a, _, ha⟩
  exact mem_encCharL_not_ws ha

theorem jsStartsWith_append (a x : String) : jsStartsWith (a ++ x) a = true := by
  unfold jsStartsWith
  rw [String.data_append, List.isPrefixOf_iff_prefix]
  exact List.prefix_append _ _

theorem mem_of_getLast?_self {α} {l : List α} {a : α} (h : l.getLast? = some a) : a ∈ l := by
  rw [← List.head?_reverse] at h
  rw [← List.mem_reverse]
  cases e : l.reverse with
  | nil => rw [e] at h; simp at h
  | cons x r =>
    rw [e] at h
    simp only [List.head?_cons, Option.some.injEq] at h
    subst h
    exact List.mem_cons_self _ _

theorem jsTrim_eq_self_of_ends (s : String)
    (h1 : ∀ c, s.data.head? = some c → isJsWs c = false)
    (h2 : ∀ c, s.data.getLast? = some c → isJsWs c = false) : jsTrim s = s := by
  apply String.ext
  show jsTrimL s.data = s.data
  unfold jsTrimL
  rw [dropWhile_eq_self_of_head? _ _ h1]
  rw [dropWhile_eq_self_of_head? _ _
    (fun c hc => h2 c (by rwa [List.head?_reverse] at hc))]
  exact List.reverse_reverse _

/-! Case equations for `rewriteLine`. -/

theorem rewriteLine_blank (ab : String) (res : String → Option String) {line : String}
    (h : (jsTrim line == "") = true) : rewriteLine ab res line = jsTrim line := by
  simp [rewriteLine, h]

theorem rewriteLine_comment (ab : String) (res : String → Option String) {line : String}
    (h : jsStartsWith (jsTrim line) "#" = true) : rewriteLine ab res line = jsTrim line := by
  simp [rewriteLine, h]

theorem rewriteLine_unresolved {ab : String} {res : String → Option String} {line : String}
    (h1 : (jsTrim line == "") = false) (h2 : jsStartsWith (jsTrim line) "#" = false)
    (h3 : res (jsTrim line) = none) : rewriteLine ab res line = jsTrim line := by
  simp [rewriteLine, h1, h2, h3]

theorem rewriteLine_already {ab : String} {res : String → Option String} {line absUrl : String}
    (h1 : (jsTrim line == "") = false) (h2 : jsStartsWith (jsTrim line) "#" = false)
    (h3 : res (jsTrim line) = some absUrl) (h4 : jsStartsWith absUrl ab = true) :
    rewriteLine ab res line = jsTrim line := by
  simp [rewriteLine, h1, h2, h3, h4]

theorem rewriteLine_rewrites {ab : String} {res : String → Option String} {line absUrl : String}
    (h1 : (jsTrim line == "") = false) (h2 : jsStartsWith (jsTrim line) "#" = false)
    (h3 : res (jsTrim line) = some absUrl) (h4 : jsStartsWith absUrl ab = false) :
    rewriteLine ab res line = ab ++ "/proxy/" ++ encodeURIComponent absUrl := by
  simp [rewriteLine, h1, h2, h3, h4]

theorem rewriteLine_cases (ab : String) (res : String → Option String) (line : String) :
    rewriteLine ab res line = jsTrim line ∨
    ∃ absUrl, res (jsTrim line) = some absUrl ∧
      rewriteLine ab res line = ab ++ "/proxy/" ++ encodeURIComponent absUrl := by
  by_cases h1 : (jsTrim line == "") = true
  · exact Or.inl (rewriteLine_blank ab res h1)
  · have h1f := Bool.eq_false_iff.mpr h1
    by_cases h2 : jsStartsWith (jsTrim line) "#" = true
    · exact Or.inl (rewriteLine_comment ab res h2)
    · have h2f := Bool.eq_false_iff.mpr h2
      cases h3 : res (jsTrim line) with
      | none => exact Or.inl (rewriteLine_unresolved h1f h2f h3)
      | some absUrl =>
        by_cases h4 : jsStartsWith absUrl ab = true
        · exact Or.inl (rewriteLine_already h1f h2f h3 h4)
        · exact Or.inr ⟨absUrl, rfl, rewriteLine_rewrites h1f h2f h3 (Bool.eq_false_iff.mpr h4)⟩

/-! Structure of an already-proxied line `ab ++ "/proxy/" ++ enc(abs)`. -/

theorem data_head_of_https {ab : String} (hb : jsStartsWith ab "https://" = true) :
    ∃ r, ab.data = 'h' :: r := by
  unfold jsStartsWith at hb
  rw [List.isPrefixOf_iff_prefix] at hb
  obtain ⟨t, ht⟩ := hb
  exact ⟨"ttps://".data ++ t, by rw [← ht]; rfl⟩

theorem proxied_data (ab abs : String) :
    (ab ++ "/proxy/" ++ encodeURIComponent abs).data
      = ab.data ++ "/proxy/".data ++ (encodeURIComponent abs).data := by
  rw [String.data_append, String.data_append]

theorem proxied_head_not_ws {ab : String} (abs : String)
    (hb : jsStartsWith ab "https://" = true) :
    ∀ c, (ab ++ "/proxy/" ++ encodeURIComponent abs).data.head? = some c → isJsWs c = false := by
  intro c hc
  obtain ⟨r, hr⟩ := data_head_of_https hb
  rw [proxied_data, hr] at hc
  have h9 : ((('h' :: r) ++ "/proxy/".data) ++ (encodeURIComponent abs).data).head? = some 'h' := rfl
  rw [h9] at hc
  injection hc with h10
  subst h10
  decide

theorem proxied_last_not_ws {ab : String} (abs : String) :
    ∀ c, (ab ++ "/proxy/" ++ encodeURIComponent abs).data.getLast? = some c → isJsWs c = false := by
  intro c hc
  rw [proxied_data] at hc
  cases e : (encodeURIComponent abs).data with
  | nil =>
    rw [e, List.append_nil] at hc
    rw [List.getLast?_append_of_ne_nil _ (by decide : "/proxy/".data ≠ [])] at hc
    have h7 : ("/proxy/".data).getLast? = some '/' := by decide
    rw [h7] at hc
    have : c = '/' := (Option.some.injEq _ _).mp hc.symm
    subst this
    decide
  | cons x r =>
    have h2 : (encodeURIComponent abs).data ≠ [] := by rw [e]; simp
    rw [List.getLast?_append_of_ne_nil _ h2] at hc
    exact mem_encodeURIComponent_not_ws (mem_of_getLast?_self hc)

theorem proxied_trim {ab : String} (abs : String) (hb : jsStartsWith ab "https://" = true) :
    jsTrim (ab ++ "/proxy/" ++ encodeURIComponent abs)
      = ab ++ "/proxy/" ++ encodeURIComponent abs :=
  jsTrim_eq_self_of_ends _ (proxied_head_not_ws abs hb) (proxied_last_not_ws abs)

theorem proxied_ne_empty {ab : String} (abs : String) (hb : jsStartsWith ab "https://" = true) :
    ((ab ++ "/proxy/" ++ encodeURIComponent abs) == "") = false := by
  rw [beq_eq_false_iff_ne]
  intro h
  obtain ⟨r, hr⟩ := data_head_of_https hb
  have hd : (ab ++ "/proxy/" ++ encodeURIComponent abs).data = [] := by rw [h]
  rw [proxied_data, hr] at hd
  simp at hd

theorem proxied_not_hash {ab : String} (abs : String) (hb : jsStartsWith ab "https://" = true) :
    jsStartsWith (ab ++ "/proxy/" ++ encodeURIComponent abs) "#" = false := by
  obtain ⟨r, hr⟩ := data_head_of_https hb
  unfold jsStartsWith
  rw [proxied_data, hr]
  rfl

theorem proxied_no_nl {ab : String} (abs : String)
    (hbw : ∀ c ∈ ab.data, isJsWs c = false) :
    ∀ c ∈ (ab ++ "/proxy/" ++ encodeURIComponent abs).data, ¬ c = '\n' := by
  intro c hc e
  subst e
  rw [proxied_data] at hc
  rcases List.mem_append.mp hc with h | h
  · rcases List.mem_append.mp h with h2 | h2
    · exact absurd (hbw _ h2) (by decide)
    · exact absurd h2 (by decide)
  · exact absurd (mem_encodeURIComponent_not_ws h) (by decide)

theorem rewriteLine_no_nl (ab : String) (res : String → Option String) (line : String)
    (hbw : ∀ c ∈ ab.data, isJsWs c = false)
    (hline : ∀ c ∈ line.data, ¬ c = '\n') :
    ∀ c ∈ (rewriteLine ab res line).data, ¬ c = '\n' := by
  rcases rewriteLine_cases ab res line with h | ⟨absUrl, _, h⟩
  · rw [h]
    intro c hc
    exact hline c (mem_of_mem_jsTrimL hc)
  · rw [h]
    exact proxied_no_nl absUrl hbw

theorem mem_jsSplitNl_no_nl {body l : String} (h : l ∈ jsSplitNl body) :
    ∀ c ∈ l.data, ¬ c = '\n' := by
  unfold jsSplitNl at h
  rcases List.mem_map.mp h with ⟨ld, hld, rfl⟩
  intro c hc e
  subst e
  exact mem_splitNlL_no_nl _ _ hld hc

theorem jsSplitNl_ne_nil (body : String) : jsSplitNl body ≠ [] := by
  unfold jsSplitNl
  intro e
  exact splitNlL_ne_nil _ (List.map_eq_nil_iff.mp e)

theorem rewriteLine_idem (ab : String) (res : String → Option String) (line : String)
    (hb : jsStartsWith ab "https://" = true)
    (hres : ∀ u v, res (ab ++ "/proxy/" ++ encodeURIComponent u) = some v →
      jsStartsWith v ab = true) :
    rewriteLine ab res (rewriteLine ab res line) = rewriteLine ab res line := by
  by_cases h1 : (jsTrim line == "") = true
  · rw [rewriteLine_blank ab res h1]
    have h1b : (jsTrim (jsTrim line) == "") = true := by rw [jsTrim_idem]; exact h1
    exact (rewriteLine_blank ab res h1b).trans (jsTrim_idem line)
  · have h1f := Bool.eq_false_iff.mpr h1
    by_cases h2 : jsStartsWith (jsTrim line) "#" = true
    · rw [rewriteLine_comment ab res h2]
      have h2b : jsStartsWith (jsTrim (jsTrim line)) "#" = true := by rw [jsTrim_idem]; exact h2
      exact (rewriteLine_comment ab res h2b).trans (jsTrim_idem line)
    · have h2f := Bool.eq_false_iff.mpr h2
      have ha : (jsTrim (jsTrim line) == "") = false := by rw [jsTrim_idem]; exact h1f
      have hbb : jsStartsWith (jsTrim (jsTrim line)) "#" = false := by rw [jsTrim_idem]; exact h2f
      cases h3 : res (jsTrim line) with
      | none =>
        rw [rewriteLine_unresolved h1f h2f h3]
        have hcc : res (jsTrim (jsTrim line)) = none := by rw [jsTrim_idem]; exact h3
        exact (rewriteLine_unresolved ha hbb hcc).trans (jsTrim_idem line)
      | some absUrl =>
        have hcc : res (jsTrim (jsTrim line)) = some absUrl := by rw [jsTrim_idem]; exact h3
        by_cases h4 : jsStartsWith absUrl ab = true
        · rw [rewriteLine_already h1f h2f h3 h4]
          exact (rewriteLine_already ha hbb hcc h4).trans (jsTrim_idem line)
        · have h4f := Bool.eq_false_iff.mpr h4
          rw [rewriteLine_rewrites h1f h2f h3 h4f]
          have htr := proxied_trim absUrl hb
          have hne : ((jsTrim (ab ++ "/proxy/" ++ encodeURIComponent absUrl)) == "") = false := by
            rw [htr]; exact proxied_ne_empty absUrl hb
          have hnh : jsStartsWith (jsTrim (ab ++ "/proxy/" ++ encodeURIComponent absUrl)) "#" = false := by
            rw [htr]; exact proxied_not_hash absUrl hb
          cases h5 : res (jsTrim (ab ++ "/proxy/" ++ encodeURIComponent absUrl)) with
          | none => exact (rewriteLine_unresolved hne hnh h5).trans htr
          | some v =>
            have h6 : jsStartsWith v ab = true := hres absUrl v (by rw [htr] at h5; exact h5)
            exact (rewriteLine_already hne hnh h5 h6).trans htr

/-! ## C10: the channel snapshot invariant -/

theorem parseM3ULoop_invariant (lines : List String) :
    ∀ (cur : Option Channel), ∀ ch ∈ parseM3ULoop cur lines,
      jsTruthy ch.id = true ∧ jsTruthy ch.name = true ∧ jsTruthy ch.url = true := by
  induction lines with
  | nil =>
    intro cur ch h
    simp [parseM3ULoop] at h
  | cons line rest ih =>
    intro cur ch h
    simp only [parseM3ULoop] at h
    split at h
    · exact ih _ ch h
    · split at h
      · split at h
        · split at h
          · rcases List.mem_cons.mp h with rfl | h2
            · rename_i hguard
              rw [Bool.and_eq_true, Bool.and_eq_true] at hguard
              exact ⟨hguard.1.1, hguard.1.2, hguard.2⟩
            · exact ih _ ch h2
          · exact ih _ ch h
        · exact ih _ ch h
      · exact ih _ ch h

/-- C10: every channel stored into the registry snapshot by a refresh has
JS-truthy (defined, non-empty) `id`, `name` and `url` fields — entries of
the feed missing any of the three are dropped by the
`if (cur.id && cur.name && cur.url)` push guard — so the catalog, meta and
stream handlers reading the snapshot only ever see channels carrying a
playable URL. -/
theorem c10_registry_invariant (m3u : String) (ch : Channel) (h : ch ∈ parseM3U m3u) :
    jsTruthy ch.id = true ∧ jsTruthy ch.name = true ∧ jsTruthy ch.url = true :=
  parseM3ULoop_invariant _ none ch h

/-- Witness for C10 at the concrete feed `sampleM3U`. -/
theorem c10_registry_invariant_witness :
    jsTruthy sampleChannel.id = true ∧ jsTruthy sampleChannel.name = true ∧
      jsTruthy sampleChannel.url = true :=
  c10_registry_invariant sampleM3U sampleChannel (by decide)

/-! ## The cache state machine: helper equations -/

theorem updateChannelCacheBegin_run {w : CacheWorld} (h : w.cache.isUpdating = false) :
    updateChannelCacheBegin w
      = ({ cache := { w.cache with isUpdating := true }
         , feedFetches := w.feedFetches + 1 }, true) := by
  unfold updateChannelCacheBegin
  rw [if_neg (by rw [h]; exact Bool.false_ne_true)]

theorem updateChannelCacheBegin_skip {w : CacheWorld} (h : w.cache.isUpdating = true) :
    updateChannelCacheBegin w = (w, false) := by
  unfold updateChannelCacheBegin
  rw [if_pos h]

theorem getChannelsRun_skip (result : Except String String) (now : Int) (w : CacheWorld)
    (h : w.cache.isUpdating = true) :
    getChannelsRun result now w = (w.cache.data, w) := by
  unfold getChannelsRun updateChannelCacheRun
  by_cases hc : w.cache.data = none ∨ now - w.cache.lastFetch > channelCacheDurationMs
  · rw [if_pos hc, updateChannelCacheBegin_skip h]
    rfl
  · rw [if_neg hc]

theorem updateChannelCacheRun_error {w : CacheWorld} (err : String) (now : Int)
    (h : w.cache.isUpdating = false) :
    updateChannelCacheRun (Except.error err) now w
      = { cache := { data := w.cache.data, lastFetch := w.cache.lastFetch, isUpdating := false }
        , feedFetches := w.feedFetches + 1 } := by
  unfold updateChannelCacheRun
  rw [updateChannelCacheBegin_run h]
  rfl

theorem getChannelsRun_error_preserves (err2 : String) (now2 : Int) (w : CacheWorld)
    (h : w.cache.isUpdating = false) :
    (getChannelsRun (Except.error err2) now2 w).1 = w.cache.data := by
  unfold getChannelsRun
  by_cases hc : w.cache.data = none ∨ now2 - w.cache.lastFetch > channelCacheDurationMs
  · rw [if_pos hc, updateChannelCacheRun_error err2 now2 h]
  · rw [if_neg hc]

/-! ## C4: a failed refresh keeps the previous snapshot -/

/-- C4: starting from a cache holding a snapshot `s` from an earlier
successful refresh (and no refresh in flight), a refresh whose feed fetch
fails leaves `channelCache.data` and `channelCache.lastFetch` untouched,
and a later `getChannels()` — even one whose own retry fails again —
returns the pre-failure snapshot: never `null`, and never empty when `s`
is not empty. -/
theorem c4_failed_refresh_preserves (w : CacheWorld) (s : List Channel)
    (err err2 : String) (now now2 : Int)
    (hdata : w.cache.data = some s) (hupd : w.cache.isUpdating = false)
    (hs : s ≠ []) :
    (updateChannelCacheRun (Except.error err) now w).cache.data = some s ∧
    (updateChannelCacheRun (Except.error err) now w).cache.lastFetch = w.cache.lastFetch ∧
    (getChannelsRun (Except.error err2) now2 (updateChannelCacheRun (Except.error err) now w)).1
      = some s ∧
    (getChannelsRun (Except.error err2) now2 (updateChannelCacheRun (Except.error err) now w)).1
      ≠ none ∧
    (getChannelsRun (Except.error err2) now2 (updateChannelCacheRun (Except.error err) now w)).1
      ≠ some [] := by
  rw [updateChannelCacheRun_error err now hupd]
  have h3 : (getChannelsRun (Except.error err2) now2
      { cache := { data := w.cache.data, lastFetch := w.cache.lastFetch, isUpdating := false }
      , feedFetches := w.feedFetches + 1 }).1 = some s :=
    (getChannelsRun_error_preserves err2 now2 _ rfl).trans hdata
  refine ⟨hdata, rfl, h3, ?_, ?_⟩
  · rw [h3]; simp
  · rw [h3]
    intro e
    exact hs (by injection e)

/-- Witness for C4 at a concrete warm cache. -/
theorem c4_failed_refresh_preserves_witness :
    (updateChannelCacheRun (Except.error "fetch failed") 5000
        { cache := { data := some [sampleChannel], lastFetch := 100, isUpdating := false }
        , feedFetches := 1 }).cache.data = some [sampleChannel] ∧
    (updateChannelCacheRun (Except.error "fetch failed") 5000
        { cache := { data := some [sampleChannel], lastFetch := 100, isUpdating := false }
        , feedFetches := 1 }).cache.lastFetch
      = ({ cache := { data := some [sampleChannel], lastFetch := 100, isUpdating := false }
         , feedFetches := 1 } : CacheWorld).cache.lastFetch ∧
    (getChannelsRun (Except.error "fetch failed again") 99999999
        (updateChannelCacheRun (Except.error "fetch failed") 5000
          { cache := { data := some [sampleChannel], lastFetch := 100, isUpdating := false }
          , feedFetches := 1 })).1 = some [sampleChannel] ∧
    (getChannelsRun (Except.error "fetch failed again") 99999999
        (updateChannelCacheRun (Except.error "fetch failed") 5000
          { cache := { data := some [sampleChannel], lastFetch := 100, isUpdating := false }
          , feedFetches := 1 })).1 ≠ none ∧
    (getChannelsRun (Except.error "fetch failed again") 99999999
        (updateChannelCacheRun (Except.error "fetch failed") 5000
          { cache := { data := some [sampleChannel], lastFetch := 100, isUpdating := false }
          , feedFetches := 1 })).1 ≠ some [] :=
  c4_failed_refresh_preserves _ [sampleChannel] "fetch failed" "fetch failed again" 5000 99999999
    rfl rfl (by decide)

/-! ## C3: overlapping refreshes -/

/-- C3 as stated is false: in the cold-cache interleaving where caller A's
refresh is in flight, caller B's `getChannels()` returns `none` — the old
snapshot — and not the result of A's refresh, because `updateChannelCache`
returns immediately («Update already in progress, skipping») instead of
letting B await the in-flight operation.  Exactly one feed fetch does
occur. -/
theorem c3_counterexample :
    (twoCallerRefreshTrace (Except.ok sampleM3U) (Except.error "unused") 1000 500 coldWorld).2.feedFetches = 1 ∧
    (twoCallerRefreshTrace (Except.ok sampleM3U) (Except.error "unused") 1000 500 coldWorld).2.cache.data
      = some [sampleChannel] ∧
    (twoCallerRefreshTrace (Except.ok sampleM3U) (Except.error "unused") 1000 500 coldWorld).1 = none ∧
    (twoCallerRefreshTrace (Except.ok sampleM3U) (Except.error "unused") 1000 500 coldWorld).1
      ≠ (twoCallerRefreshTrace (Except.ok sampleM3U) (Except.error "unused") 1000 500 coldWorld).2.cache.data := by
  decide

/-- C3 (amended): while a refresh is in flight no second feed fetch is
started — the overlapping pair of callers performs exactly one fetch — but
the second caller does not await the in-flight refresh: its
`updateChannelCache` call returns immediately and its `getChannels()`
yields the pre-refresh snapshot (possibly `none`), not the in-flight
refresh's result. -/
theorem c3_single_flight_skips (aResult bResult : Except String String)
    (aNow bNow : Int) (w0 : CacheWorld) (h0 : w0.cache.isUpdating = false) :
    (twoCallerRefreshTrace aResult bResult aNow bNow w0).2.feedFetches = w0.feedFetches + 1 ∧
    (twoCallerRefreshTrace aResult bResult aNow bNow w0).1 = w0.cache.data := by
  have hg := getChannelsRun_skip bResult bNow
    ({ cache := { w0.cache with isUpdating := true }
     , feedFetches := w0.feedFetches + 1 } : CacheWorld) rfl
  unfold twoCallerRefreshTrace
  simp only [updateChannelCacheBegin_run h0, hg]
  cases aResult with
  | ok m3u => exact ⟨by simp [updateChannelCacheComplete], by simp⟩
  | error e => exact ⟨by simp [updateChannelCacheComplete], by simp⟩

/-- Witness for the amended C3 at the cold cache. -/
theorem c3_single_flight_skips_witness :
    (twoCallerRefreshTrace (Except.ok sampleM3U) (Except.error "unused") 1000 500 coldWorld).2.feedFetches
      = coldWorld.feedFetches + 1 ∧
    (twoCallerRefreshTrace (Except.ok sampleM3U) (Except.error "unused") 1000 500 coldWorld).1
      = coldWorld.cache.data :=
  c3_single_flight_skips (Except.ok sampleM3U) (Except.error "unused") 1000 500 coldWorld rfl

/-! ## C2: idempotence of the playlist rewrite -/

theorem jsStartsWith_trans {a b c : String} (h1 : jsStartsWith b a = true)
    (h2 : jsStartsWith c b = true) : jsStartsWith c a = true := by
  unfold jsStartsWith at h1 h2 ⊢
  rw [List.isPrefixOf_iff_prefix] at h1 h2 ⊢
  exact h1.trans h2

/-- C2: for any playlist body whose non-comment lines all resolve, the
rewrite is idempotent, `rewrite(rewrite(B)) = rewrite(B)`, because any
line whose resolved absolute URL already starts with the addon base is
left untouched.  The hypotheses about `resolve` and `addonBaseUrl` record
what the ambient WHATWG `URL` library guarantees: the base is an
`https://` URL without whitespace, and the `href` of an already-proxied
line `addonBase ++ "/proxy/" ++ enc(u)` (when it parses) still starts
with the addon base. -/
theorem c2_rewrite_idempotent (addonBaseUrl : String)
    (resolve : String → Option String) (body : String)
    (hbase : jsStartsWith addonBaseUrl "https://" = true)
    (hbaseWs : ∀ c ∈ addonBaseUrl.data, isJsWs c = false)
    (hres : ∀ u v, resolve (addonBaseUrl ++ "/proxy/" ++ encodeURIComponent u) = some v →
      jsStartsWith v addonBaseUrl = true)
    (hresolvable : ∀ line ∈ jsSplitNl body, (jsTrim line == "") = false →
      jsStartsWith (jsTrim line) "#" = false → (resolve (jsTrim line)).isSome = true) :
    rewritePlaylist addonBaseUrl resolve (rewritePlaylist addonBaseUrl resolve body)
      = rewritePlaylist addonBaseUrl resolve body := by
  unfold rewritePlaylist rewriteLines
  have hM : jsSplitNl (jsJoinNl ((jsSplitNl body).map (rewriteLine addonBaseUrl resolve)))
      = (jsSplitNl body).map (rewriteLine addonBaseUrl resolve) := by
    apply jsSplitNl_jsJoinNl
    · intro e
      exact jsSplitNl_ne_nil body (List.map_eq_nil_iff.mp e)
    · intro m hm
      rcases List.mem_map.mp hm with ⟨l, hl, rfl⟩
      exact rewriteLine_no_nl addonBaseUrl resolve l hbaseWs (mem_jsSplitNl_no_nl hl)
  rw [hM, List.map_map]
  congr 1
  apply List.map_congr_left
  intro l _
  exact rewriteLine_idem addonBaseUrl resolve l hbase hres

theorem string_append_assoc (a b c : String) : a ++ b ++ c = a ++ (b ++ c) := by
  apply String.ext
  rw [String.data_append, String.data_append, String.data_append, String.data_append]
  exact List.append_assoc _ _ _

/-- Witness for C2 at a concrete base, resolver and two-line playlist. -/
theorem c2_rewrite_idempotent_witness :
    rewritePlaylist "https://addon.example" witResolve
        (rewritePlaylist "https://addon.example" witResolve "#EXTM3U\nsegment1.ts")
      = rewritePlaylist "https://addon.example" witResolve "#EXTM3U\nsegment1.ts" :=
  c2_rewrite_idempotent "https://addon.example" witResolve "#EXTM3U\nsegment1.ts"
    (by decide) (by decide)
    (fun u v h => by
      have harg : jsStartsWith ("https://addon.example" ++ "/proxy/" ++ encodeURIComponent u)
          "https://addon.example" = true := by
        rw [string_append_assoc]
        exact jsStartsWith_append _ _
      have hhttps : jsStartsWith ("https://addon.example" ++ "/proxy/" ++ encodeURIComponent u)
          "https://" = true := jsStartsWith_trans (by decide) harg
      unfold witResolve at h
      rw [if_pos hhttps] at h
      injection h with hv
      rw [← hv]
      exact harg)
    (by decide)

/-! ## C7: comment and blank lines -/

theorem rewriteLine_skip (ab : String) (res : String → Option String) {line : String}
    (h : (jsTrim line == "") = true ∨ jsStartsWith (jsTrim line) "#" = true) :
    rewriteLine ab res line = jsTrim line := by
  rcases h with h | h
  · exact rewriteLine_blank ab res h
  · exact rewriteLine_comment ab res h

theorem rewriteLine005_skip (ab : String) (res : String → Option String) {line : String}
    (h : (jsTrim line == "") = true ∨ jsStartsWith (jsTrim line) "#" = true) :
    rewriteLine005 ab res line = jsTrim line := by
  rcases h with h | h <;> simp [rewriteLine005, h]

/-- C7 as stated is false: both rewriters trim every line they emit, so a
comment line carrying trailing whitespace is altered character-for-character
(`#EXTM3U ` becomes `#EXTM3U`); likewise the `\r` of a CRLF playlist is
stripped. -/
theorem c7_counterexample :
    jsStartsWith (jsTrim "#EXTM3U ") "#" = true ∧
    rewritePlaylist "https://a.b" resolveNever "#EXTM3U " = "#EXTM3U" ∧
    rewritePlaylist005 "https://a.b" resolveNever "#EXTM3U " = "#EXTM3U" ∧
    ("#EXTM3U" : String) ≠ "#EXTM3U " := by decide

/-- C7 (amended): both rewriters emit comment lines (first non-blank
character `#`) and blank lines in unchanged count and order, each emitted
as its trimmed self — hence character-for-character unchanged exactly when
the line carries no leading or trailing whitespace. -/
theorem c7_comment_blank_preserved (ab : String) (res : String → Option String)
    (body : String) :
    (rewriteLines ab res body).length = (jsSplitNl body).length ∧
    (∀ (i : Nat) (line : String), (jsSplitNl body)[i]? = some line →
      ((jsTrim line == "") = true ∨ jsStartsWith (jsTrim line) "#" = true) →
      (rewriteLines ab res body)[i]? = some (jsTrim line) ∧
      ((jsSplitNl body).map (rewriteLine005 ab res))[i]? = some (jsTrim line)) ∧
    (∀ (i : Nat) (line : String), (jsSplitNl body)[i]? = some line → jsTrim line = line →
      ((jsTrim line == "") = true ∨ jsStartsWith (jsTrim line) "#" = true) →
      (rewriteLines ab res body)[i]? = some line) := by
  have hmain : ∀ (i : Nat) (line : String), (jsSplitNl body)[i]? = some line →
      ((jsTrim line == "") = true ∨ jsStartsWith (jsTrim line) "#" = true) →
      (rewriteLines ab res body)[i]? = some (jsTrim line) ∧
      ((jsSplitNl body).map (rewriteLine005 ab res))[i]? = some (jsTrim line) := by
    intro i line hline hcm
    constructor
    · unfold rewriteLines
      rw [List.getElem?_map, hline]
      show some (rewriteLine ab res line) = some (jsTrim line)
      rw [rewriteLine_skip ab res hcm]
    · rw [List.getElem?_map, hline]
      show some (rewriteLine005 ab res line) = some (jsTrim line)
      rw [rewriteLine005_skip ab res hcm]
  refine ⟨?_, hmain, ?_⟩
  · unfold rewriteLines
    exact List.length_map _ _
  · intro i line hline htrim hcm
    have h5 := (hmain i line hline hcm).1
    rw [htrim] at h5
    exact h5

/-- Witness for the amended C7 at a concrete playlist. -/
theorem c7_comment_blank_preserved_witness :
    (rewriteLines "https://a.b" resolveNever "#EXTM3U\nx")[0]? = some (jsTrim "#EXTM3U") ∧
    ((jsSplitNl "#EXTM3U\nx").map (rewriteLine005 "https://a.b" resolveNever))[0]?
      = some (jsTrim "#EXTM3U") :=
  (c7_comment_blank_preserved "https://a.b" resolveNever "#EXTM3U\nx").2.1 0 "#EXTM3U"
    (by decide) (by decide)

/-! ## C8: resolution failure passes the line through -/

/-- C8 as stated is false on whitespace: a non-comment line that fails
resolution is emitted trimmed, so `https:// ` (whose trimmed form
`https://` makes `new URL` throw) comes out as `https://`, not as the
original `https:// `. -/
theorem c8_counterexample :
    (jsTrim "https:// " == "") = false ∧
    jsStartsWith (jsTrim "https:// ") "#" = false ∧
    resolveNever (jsTrim "https:// ") = none ∧
    rewritePlaylist "https://a.b" resolveNever "https:// " = "https://" ∧
    ("https://" : String) ≠ "https:// " := by decide

/-- C8 (amended): a non-empty non-comment line whose URL resolution fails
(the `catch` branch, modelled by the resolver returning `none`) is emitted
as its trimmed self — character-for-character unchanged whenever it has no
surrounding whitespace — and the rewrite is a total function of the body,
so no exception escapes the rewrite step to fail the request. -/
theorem c8_unresolved_line_passthrough (ab : String) (res : String → Option String)
    (body : String) (i : Nat) (line : String)
    (hline : (jsSplitNl body)[i]? = some line)
    (h1 : (jsTrim line == "") = false)
    (h2 : jsStartsWith (jsTrim line) "#" = false)
    (h3 : res (jsTrim line) = none) :
    (rewriteLines ab res body)[i]? = some (jsTrim line) ∧
    (jsTrim line = line → (rewriteLines ab res body)[i]? = some line) := by
  have hmain : (rewriteLines ab res body)[i]? = some (jsTrim line) := by
    unfold rewriteLines
    rw [List.getElem?_map, hline]
    show some (rewriteLine ab res line) = some (jsTrim line)
    rw [rewriteLine_unresolved h1 h2 h3]
  exact ⟨hmain, fun ht => by rw [ht] at hmain; exact hmain⟩

/-- Witness for the amended C8. -/
theorem c8_unresolved_line_passthrough_witness :
    (rewriteLines "https://a.b" resolveNever "segment.ts")[0]? = some (jsTrim "segment.ts") ∧
    (jsTrim "segment.ts" = "segment.ts" →
      (rewriteLines "https://a.b" resolveNever "segment.ts")[0]? = some "segment.ts") :=
  c8_unresolved_line_passthrough "https://a.b" resolveNever "segment.ts" 0 "segment.ts"
    (by decide) (by decide) (by decide) (by decide)

/-! ## Handler step equations and inequalities -/

theorem ne_empty_of_http_prefix {d : String}
    (h : (jsStartsWith d "http://" || jsStartsWith d "https://") = true) :
    (d == "") = false := by
  rw [beq_eq_false_iff_ne]
  intro e
  subst e
  rw [Bool.or_eq_true] at h
  rcases h with h | h <;> exact absurd h (by decide)

theorem proxyHandler_run {env : ProxyEnv} {d : String}
    (hm : ¬ env.method = Method.options)
    (hne : (env.encodedUrl == "") = false)
    (hdec : env.decodeUriComponent env.encodedUrl = some d) :
    proxyHandler env = proxyOnDecodedUrl env (some d) := by
  unfold proxyHandler
  rw [if_neg hm, if_neg (Bool.eq_false_iff.mp hne), hdec]

theorem proxyOnDecodedUrl_scheme_ok {env : ProxyEnv} {d : String}
    (hpre : (jsStartsWith d "http://" || jsStartsWith d "https://") = true) :
    proxyOnDecodedUrl env (some d) = proxyPostValidation env d := by
  simp only [proxyOnDecodedUrl]
  rw [hpre]
  rfl

theorem proxyPostValidation_ctor_ok {env : ProxyEnv} {d : String}
    (hctor : env.urlCtorOk d = true) :
    proxyPostValidation env d = proxyOnFetchOutcome env d env.fetchOutcome := by
  unfold proxyPostValidation
  rw [hctor]
  rfl

theorem proxyOnFetchOutcome_notOk {env : ProxyEnv} {d : String} {st : Nat} {stx : String}
    {ct : Option String} {bt : Except String String}
    (hnot : (200 ≤ st && st < 300) = false) :
    proxyOnFetchOutcome env d (FetchOutcome.response st stx ct bt)
      = { status := st
        , body := RBody.json (JVal.jobj
            [("error", JVal.jstr ("Upstream HTTP " ++ toString st ++ ": " ++ stx))]) } := by
  simp only [proxyOnFetchOutcome]
  rw [hnot]
  rfl

theorem proxyOnFetchOutcome_ok_m3u8_get {env : ProxyEnv} {d : String} {st : Nat}
    {stx : String} {ct : Option String} {m3u8Body : String}
    (hm : env.method = Method.get)
    (hok : (200 ≤ st && st < 300) = true)
    (hm3u8 : m3u8ContentType (ct.getD "") d = true) :
    proxyOnFetchOutcome env d (FetchOutcome.response st stx ct (Except.ok m3u8Body))
      = { status := 200
        , body := RBody.text (rewritePlaylist env.addonBaseUrl env.resolve m3u8Body) } := by
  simp only [proxyOnFetchOutcome, proxyOnM3U8Body, hok, hm, hm3u8]
  rfl

theorem proxyOnFetchOutcome_fetchErr {env : ProxyEnv} {d msg : String} :
    proxyOnFetchOutcome env d (FetchOutcome.fetchError msg)
      = proxyCatchResponse env (some d) none msg := by
  simp only [proxyOnFetchOutcome]

theorem proxyCatchResponse_status (env : ProxyEnv) (du : Option String)
    (up : Option (Nat × String)) (msg : String) :
    (proxyCatchResponse env du up msg).status = 503 := by
  unfold proxyCatchResponse
  split <;> rfl

theorem response_ne_of_status {r1 r2 : Response} {a b : Nat}
    (h1 : r1.status = a) (h2 : r2.status = b) (hab : a ≠ b) : r1 ≠ r2 := by
  intro e
  apply hab
  rw [← h1, e, h2]

theorem upstream_error_string_head (st : Nat) (stx : String) :
    ("Upstream HTTP " ++ toString st ++ ": " ++ stx).data.head? = some 'U' := by
  rw [String.data_append, String.data_append, String.data_append]
  rfl

theorem upstream_json_ne_noUrl400 (st : Nat) (stx : String) :
    ({ status := st
     , body := RBody.json (JVal.jobj
         [("error", JVal.jstr ("Upstream HTTP " ++ toString st ++ ": " ++ stx))]) } : Response)
      ≠ noUrl400 := by
  intro h
  have hb := congrArg Response.body h
  simp only [noUrl400] at hb
  injection hb with hv
  injection hv with hf
  injection hf with hp ht
  injection hp with hk hval
  injection hval with hs
  have h2 := upstream_error_string_head st stx
  rw [hs] at h2
  exact absurd h2 (by decide)

theorem upstream_json_ne_badScheme400 (st : Nat) (stx : String) :
    ({ status := st
     , body := RBody.json (JVal.jobj
         [("error", JVal.jstr ("Upstream HTTP " ++ toString st ++ ": " ++ stx))]) } : Response)
      ≠ badScheme400 := by
  intro h
  have hb := congrArg Response.body h
  simp only [badScheme400] at hb
  injection hb with hv
  injection hv with hf
  injection hf with hp ht
  injection hp with hk hval
  injection hval with hs
  have h2 := upstream_error_string_head st stx
  rw [hs] at h2
  exact absurd h2 (by decide)

theorem proxyOnFetchOutcome_ne_validation (env : ProxyEnv) (d : String) (fo : FetchOutcome) :
    proxyOnFetchOutcome env d fo ≠ noUrl400 ∧ proxyOnFetchOutcome env d fo ≠ badScheme400 := by
  cases fo with
  | fetchError msg =>
    simp only [proxyOnFetchOutcome]
    exact ⟨response_ne_of_status (proxyCatchResponse_status _ _ _ _) rfl (by decide),
           response_ne_of_status (proxyCatchResponse_status _ _ _ _) rfl (by decide)⟩
  | response st stx ct bt =>
    simp only [proxyOnFetchOutcome]
    by_cases hok : (200 ≤ st && st < 300) = true
    · rw [if_neg (by rw [hok]; decide)]
      split
      · exact ⟨response_ne_of_status rfl rfl (by decide),
               response_ne_of_status rfl rfl (by decide)⟩
      · split
        · cases bt with
          | error msg =>
            simp only [proxyOnM3U8Body]
            exact ⟨response_ne_of_status (proxyCatchResponse_status _ _ _ _) rfl (by decide),
                   response_ne_of_status (proxyCatchResponse_status _ _ _ _) rfl (by decide)⟩
          | ok b =>
            simp only [proxyOnM3U8Body]
            exact ⟨response_ne_of_status (a := 200) rfl rfl (by decide),
                   response_ne_of_status (a := 200) rfl rfl (by decide)⟩
        · exact ⟨response_ne_of_status rfl rfl (by decide),
                 response_ne_of_status rfl rfl (by decide)⟩
    · rw [if_pos (by rw [Bool.eq_false_iff.mpr hok]; rfl)]
      exact ⟨upstream_json_ne_noUrl400 st stx, upstream_json_ne_badScheme400 st stx⟩

/-! ## C1: rewriting playlist lines to proxied URLs -/

/-- C1 as stated is false: a non-empty non-comment line whose resolved
URL already starts with the addon base is left unchanged by the guard of
line 196 instead of being wrapped again (here the resolver returns an
absolute `https:` URL unchanged, as `new URL(...).href` does). -/
theorem c1_counterexample :
    (jsTrim "https://a.b/proxy/x" == "") = false ∧
    jsStartsWith (jsTrim "https://a.b/proxy/x") "#" = false ∧
    witResolve (jsTrim "https://a.b/proxy/x") = some "https://a.b/proxy/x" ∧
    rewriteLine "https://a.b" witResolve "https://a.b/proxy/x"
      ≠ "https://a.b" ++ "/proxy/" ++ encodeURIComponent "https://a.b/proxy/x" := by
  decide

/-- C1 (amended): for a GET of a valid encoded URL whose upstream response
is an OK playlist, the response body is the rewritten playlist, and every
line that (after trimming) is non-empty, does not start with `#`, resolves
against the playlist URL, and does not already point at the addon base, is
replaced by `{addonBase}/proxy/{encodeURIComponent(absoluteURL)}` at its
original position. -/
theorem c1_playlist_rewrite (env : ProxyEnv) (d : String) (st : Nat) (stx : String)
    (ct : Option String) (m3u8Body : String) (i : Nat) (line absUrl : String)
    (hm : env.method = Method.get)
    (hne : (env.encodedUrl == "") = false)
    (hdec : env.decodeUriComponent env.encodedUrl = some d)
    (hpre : (jsStartsWith d "http://" || jsStartsWith d "https://") = true)
    (hctor : env.urlCtorOk d = true)
    (hfetch : env.fetchOutcome = FetchOutcome.response st stx ct (Except.ok m3u8Body))
    (hok : (200 ≤ st && st < 300) = true)
    (hm3u8 : m3u8ContentType (ct.getD "") d = true)
    (hline : (jsSplitNl m3u8Body)[i]? = some line)
    (h1 : (jsTrim line == "") = false)
    (h2 : jsStartsWith (jsTrim line) "#" = false)
    (h3 : env.resolve (jsTrim line) = some absUrl)
    (h4 : jsStartsWith absUrl env.addonBaseUrl = false) :
    proxyHandler env
      = { status := 200
        , body := RBody.text (rewritePlaylist env.addonBaseUrl env.resolve m3u8Body) } ∧
    (rewriteLines env.addonBaseUrl env.resolve m3u8Body)[i]?
      = some (env.addonBaseUrl ++ "/proxy/" ++ encodeURIComponent absUrl) := by
  constructor
  · rw [proxyHandler_run (by rw [hm]; decide) hne hdec,
       proxyOnDecodedUrl_scheme_ok hpre, proxyPostValidation_ctor_ok hctor, hfetch,
       proxyOnFetchOutcome_ok_m3u8_get hm hok hm3u8]
  · unfold rewriteLines
    rw [List.getElem?_map, hline]
    show some (rewriteLine env.addonBaseUrl env.resolve line) = some _
    rw [rewriteLine_rewrites h1 h2 h3 h4]

/-- Witness for the amended C1 at the spec's scenario: the playlist of
`https://example.test/live.m3u8` holding a bare `segment1.ts` line. -/
theorem c1_playlist_rewrite_witness :
    proxyHandler witEnv
      = { status := 200
        , body := RBody.text
            (rewritePlaylist witEnv.addonBaseUrl witEnv.resolve "#EXTM3U\nsegment1.ts") } ∧
    (rewriteLines witEnv.addonBaseUrl witEnv.resolve "#EXTM3U\nsegment1.ts")[1]?
      = some (witEnv.addonBaseUrl ++ "/proxy/"
          ++ encodeURIComponent "https://example.test/segment1.ts") :=
  c1_playlist_rewrite witEnv "https://example.test/live.m3u8" 200 "OK"
    (some "application/vnd.apple.mpegurl") "#EXTM3U\nsegment1.ts" 1 "segment1.ts"
    "https://example.test/segment1.ts"
    rfl (by decide) (by decide) (by decide) rfl rfl (by decide) (by decide)
    (by decide) (by decide) (by decide) (by decide) (by decide)

/-! ## C5: non-2xx upstream responses -/

/-- C5 as stated is false for the second handler variant: an upstream 404
is answered with a 500 (`Upstream HTTP 404: Not Found` is thrown into the
catch of lines 456-464, which always sets 500), not with the propagated
404. -/
theorem c5_counterexample :
    (proxyV2UpstreamNotOk "https://e.t/seg.ts" "https%3A%2F%2Fe.t%2Fseg.ts" 404 "Not Found").status
      = 500 ∧ (500 : Nat) ≠ 404 := by
  decide

/-- C5 (amended): when the upstream fetch completes with a non-2xx status,
the primary handler responds with that same upstream status and a JSON
error body — never relaying the payload as media — while the second
variant responds 500 with a JSON error body that carries the upstream
status only in its `upstreamStatus` field; in particular an upstream 500
yields a 500 JSON error from both, never a 200. -/
theorem c5_upstream_not_ok (env : ProxyEnv) (d : String) (st : Nat) (stx : String)
    (ct : Option String) (bt : Except String String)
    (hm : env.method = Method.get)
    (hne : (env.encodedUrl == "") = false)
    (hdec : env.decodeUriComponent env.encodedUrl = some d)
    (hpre : (jsStartsWith d "http://" || jsStartsWith d "https://") = true)
    (hctor : env.urlCtorOk d = true)
    (hfetch : env.fetchOutcome = FetchOutcome.response st stx ct bt)
    (hnot : (200 ≤ st && st < 300) = false) :
    proxyHandler env
      = { status := st
        , body := RBody.json (JVal.jobj
            [("error", JVal.jstr ("Upstream HTTP " ++ toString st ++ ": " ++ stx))]) } ∧
    isJsonResponse (proxyHandler env) = true ∧
    (proxyV2UpstreamNotOk d env.encodedUrl st stx).status = 500 ∧
    isJsonResponse (proxyV2UpstreamNotOk d env.encodedUrl st stx) = true := by
  rw [proxyHandler_run (by rw [hm]; decide) hne hdec,
     proxyOnDecodedUrl_scheme_ok hpre, proxyPostValidation_ctor_ok hctor, hfetch,
     proxyOnFetchOutcome_notOk hnot]
  exact ⟨rfl, rfl, rfl, rfl⟩

/-- Witness for the amended C5: an upstream 500 yields a 500 JSON error
from both variants. -/
theorem c5_upstream_not_ok_witness :
    proxyHandler witEnv500
      = { status := 500
        , body := RBody.json (JVal.jobj
            [("error", JVal.jstr ("Upstream HTTP " ++ toString (500 : Nat)
                ++ ": " ++ "Internal Server Error"))]) } ∧
    isJsonResponse (proxyHandler witEnv500) = true ∧
    (proxyV2UpstreamNotOk "https://example.test/live.m3u8" witEnv500.encodedUrl 500
        "Internal Server Error").status = 500 ∧
    isJsonResponse (proxyV2UpstreamNotOk "https://example.test/live.m3u8"
        witEnv500.encodedUrl 500 "Internal Server Error") = true :=
  c5_upstream_not_ok witEnv500 "https://example.test/live.m3u8" 500 "Internal Server Error"
    (some "video/MP2T") (Except.ok "") rfl (by decide) (by decide) (by decide) rfl rfl
    (by decide)

/-! ## C6: timeout and network failure -/

/-- C6: the upstream fetch is armed with the 30 000 ms abort timer of line
120, and when the fetch fails (timeout abort, DNS/connect/TLS error) the
handler responds 503: for GET with the structured JSON body of lines
228-234 — error kind `Proxy error`, a message carrying the decoded target
URL, the upstream status/statusText fields (null here, since no upstream
response exists on a transport failure; a failure after headers keeps
them), and the diagnostic `details` object — and for HEAD with an empty
503 body (line 225), HEAD responses carrying no body on the wire. -/
theorem c6_upstream_failure (env : ProxyEnv) (d msg : String)
    (hne : (env.encodedUrl == "") = false)
    (hdec : env.decodeUriComponent env.encodedUrl = some d)
    (hpre : (jsStartsWith d "http://" || jsStartsWith d "https://") = true)
    (hctor : env.urlCtorOk d = true)
    (hfetch : env.fetchOutcome = FetchOutcome.fetchError msg) :
    upstreamTimeoutMs = 30000 ∧
    (env.method = Method.get →
      proxyHandler env
        = { status := 503
          , body := RBody.json (JVal.jobj
              [ ("error", JVal.jstr "Proxy error")
              , ("message", JVal.jstr (msg ++ (" for URL: " ++ d)))
              , ("upstreamStatus", JVal.jnull)
              , ("url", JVal.jstr env.encodedUrl)
              , ("details", JVal.jobj
                  [ ("timestamp", JVal.jstr env.timestamp)
                  , ("method", JVal.jstr "GET")
                  , ("url", JVal.jstr d)
                  , ("error", JVal.jstr msg)
                  , ("upstreamStatus", JVal.jnull)
                  , ("upstreamStatusText", JVal.jnull)
                  , ("headers", env.customHeadersJson)
                  , ("query", env.queryJson) ]) ]) }) ∧
    (env.method = Method.head →
      proxyHandler env = { status := 503, body := RBody.empty }) := by
  have hd : (d == "") = false := ne_empty_of_http_prefix hpre
  refine ⟨rfl, ?_, ?_⟩ <;> intro hm
  · rw [proxyHandler_run (by rw [hm]; decide) hne hdec,
       proxyOnDecodedUrl_scheme_ok hpre, proxyPostValidation_ctor_ok hctor, hfetch,
       proxyOnFetchOutcome_fetchErr]
    simp [proxyCatchResponse, hm, hne, hd, methodString]
  · rw [proxyHandler_run (by rw [hm]; decide) hne hdec,
       proxyOnDecodedUrl_scheme_ok hpre, proxyPostValidation_ctor_ok hctor, hfetch,
       proxyOnFetchOutcome_fetchErr]
    unfold proxyCatchResponse
    rw [if_pos hm]

/-- Witness for C6 at a concrete aborted fetch. -/
theorem c6_upstream_failure_witness :
    upstreamTimeoutMs = 30000 ∧
    (witEnvFail.method = Method.get →
      proxyHandler witEnvFail
        = { status := 503
          , body := RBody.json (JVal.jobj
              [ ("error", JVal.jstr "Proxy error")
              , ("message", JVal.jstr ("The user aborted a request."
                  ++ (" for URL: " ++ "https://example.test/live.m3u8")))
              , ("upstreamStatus", JVal.jnull)
              , ("url", JVal.jstr witEnvFail.encodedUrl)
              , ("details", JVal.jobj
                  [ ("timestamp", JVal.jstr witEnvFail.timestamp)
                  , ("method", JVal.jstr "GET")
                  , ("url", JVal.jstr "https://example.test/live.m3u8")
                  , ("error", JVal.jstr "The user aborted a request.")
                  , ("upstreamStatus", JVal.jnull)
                  , ("upstreamStatusText", JVal.jnull)
                  , ("headers", witEnvFail.customHeadersJson)
                  , ("query", witEnvFail.queryJson) ]) ]) }) ∧
    (witEnvFail.method = Method.head →
      proxyHandler witEnvFail = { status := 503, body := RBody.empty }) :=
  c6_upstream_failure witEnvFail "https://example.test/live.m3u8"
    "The user aborted a request." (by decide) (by decide) (by decide) rfl rfl

/-! ## C9: the 400 validations -/

/-- C9: the handler responds 400 with an error body exactly when the
encoded URL path parameter is absent or its percent-decoding does not
start with `http://`/`https://` — the outcome then does not depend on any
upstream fetch (none is made) — while for any decoded URL that does start
with one of those schemes neither validation 400 is produced; and when
`decodeURIComponent` itself throws, the handler answers 503 (the catch),
not a validation 400. -/
theorem c9_validation_400 (env : ProxyEnv) (hm : env.method ≠ Method.options) :
    ((env.encodedUrl == "") = true →
      proxyHandler env = noUrl400 ∧
      ∀ fo, proxyHandler { env with fetchOutcome := fo } = noUrl400) ∧
    (∀ d, (env.encodedUrl == "") = false →
      env.decodeUriComponent env.encodedUrl = some d →
      (jsStartsWith d "http://" || jsStartsWith d "https://") = false →
      proxyHandler env = badScheme400 ∧
      ∀ fo, proxyHandler { env with fetchOutcome := fo } = badScheme400) ∧
    (∀ d, (env.encodedUrl == "") = false →
      env.decodeUriComponent env.encodedUrl = some d →
      (jsStartsWith d "http://" || jsStartsWith d "https://") = true →
      proxyHandler env ≠ noUrl400 ∧ proxyHandler env ≠ badScheme400) ∧
    ((env.encodedUrl == "") = false →
      env.decodeUriComponent env.encodedUrl = none →
      (proxyHandler env).status = 503 ∧
      proxyHandler env ≠ noUrl400 ∧ proxyHandler env ≠ badScheme400) := by
  refine ⟨?_, ?_, ?_, ?_⟩
  · intro h
    refine ⟨?_, fun fo => ?_⟩
    · unfold proxyHandler
      rw [if_neg hm, if_pos h]
    · unfold proxyHandler
      rw [if_neg hm, if_pos h]
  · intro d hne hdec hpre
    refine ⟨?_, fun fo => ?_⟩
    · rw [proxyHandler_run hm hne hdec]
      simp only [proxyOnDecodedUrl]
      rw [hpre]
      rfl
    · rw [@proxyHandler_run { env with fetchOutcome := fo } d hm hne hdec]
      simp only [proxyOnDecodedUrl]
      rw [hpre]
      rfl
  · intro d hne hdec hpre
    rw [proxyHandler_run hm hne hdec, proxyOnDecodedUrl_scheme_ok hpre]
    unfold proxyPostValidation
    by_cases hc : env.urlCtorOk d = true
    · rw [hc]
      show proxyOnFetchOutcome env d env.fetchOutcome ≠ noUrl400 ∧
        proxyOnFetchOutcome env d env.fetchOutcome ≠ badScheme400
      exact proxyOnFetchOutcome_ne_validation env d env.fetchOutcome
    · rw [if_pos (by rw [Bool.eq_false_iff.mpr hc]; rfl)]
      exact ⟨response_ne_of_status (proxyCatchResponse_status _ _ _ _) rfl (by decide),
             response_ne_of_status (proxyCatchResponse_status _ _ _ _) rfl (by decide)⟩
  · intro hne hdecNone
    have hrun : proxyHandler env = proxyCatchResponse env none none "URI malformed" := by
      unfold proxyHandler
      rw [if_neg hm, if_neg (Bool.eq_false_iff.mp hne), hdecNone]
      rfl
    rw [hrun]
    exact ⟨proxyCatchResponse_status _ _ _ _,
           response_ne_of_status (proxyCatchResponse_status _ _ _ _) rfl (by decide),
           response_ne_of_status (proxyCatchResponse_status _ _ _ _) rfl (by decide)⟩

/-- Witness for C9: the scheme-valid decoded URL of `witEnv` triggers
neither validation 400. -/
theorem c9_validation_400_witness :
    proxyHandler witEnv ≠ noUrl400 ∧ proxyHandler witEnv ≠ badScheme400 :=
  (c9_validation_400 witEnv (by decide)).2.2.1 "https://example.test/live.m3u8"
    (by decide) (by decide) (by decide)
